import Mathlib

/-!
Verification of the BinPy `SignalGenerator` (BinPy/analog/sig_gen.py).

The parameter-store operations on frequency are pure rational arithmetic and
are embedded over `ℚ` (Python floats carry exact decimal literals here, and
the claims are algebraic).  Amplitude/attenuation involve `log10` and the
waveform synthesis involves `sin`, so those parts are embedded over `ℝ`.
Python `float("inf")` is represented by `Option` (`none` = infinity), and a
Python exception by an `Except`/`Option String` error component.
-/

namespace SignalGenerator

/-- `FREQ_MIN = 0.1` (class constant). -/
def FREQ_MIN : ℚ := 1 / 10

/-- `FREQ_MAX = 1000000000` (class constant). -/
def FREQ_MAX : ℚ := 1000000000

/-- The `FREQ_RANGE` dict, keys 0..7 in order. -/
def FREQ_RANGE : List (ℚ × ℚ) :=
  [(1/10, 10), (10, 100), (100, 1000), (1000, 10000), (10000, 100000),
   (100000, 1000000), (1000000, 10000000), (10000000, 1000000000)]

/-- The frequency-related slice of the generator's mutable state:
`_frequency`, `_frequency_range`, `_time_period` (`none` = `float("inf")`). -/
structure FreqState where
  frequency : ℚ
  frequency_range : ℚ × ℚ
  time_period : Option ℚ
  deriving Repr, DecidableEq

/-- The range-selection loop of `set_frequency_exact` (lines 371-374):
`for i in range(len(FREQ_RANGE)): if frequency <= FREQ_RANGE[i][0] and
frequency >= FREQ_RANGE[i][0]: self._frequency_range = FREQ_RANGE[i]; break`.
Both comparisons are against index `[0]`, so a band is selected only when
`frequency` equals its lower bound exactly; otherwise the old range is kept. -/
def selectRange (frequency : ℚ) (old : ℚ × ℚ) : ℚ × ℚ :=
  match FREQ_RANGE.find? (fun b => decide (frequency ≤ b.1) && decide (frequency ≥ b.1)) with
  | some b => b
  | none => old

/-- `set_frequency_exact` (lines 354-380).  The two clamp branches assign
`_frequency`, but the assignment `self._frequency = float(frequency)` that
follows is unconditional and overwrites them. -/
def set_frequency_exact (frequency : ℚ) (s : FreqState) : FreqState :=
  let s := if frequency < FREQ_MIN then { s with frequency := FREQ_MIN } else s
  let s := if frequency > FREQ_MAX then { s with frequency := FREQ_MAX } else s
  let s := { s with frequency := frequency }
  let s := { s with frequency_range := selectRange frequency s.frequency_range }
  if s.frequency ≠ 0 then { s with time_period := some (1 / s.frequency) }
  else { s with time_period := none }

/-- Whether the two-element sequence passed to `set_frequency_range` is a
Python `list` (mutable) or `tuple` (immutable: item assignment raises). -/
inductive SeqKind where
  | list
  | tuple
  deriving Repr, DecidableEq

/-- `set_frequency_range` (lines 296-332) on a two-element sequence
`(lo, hi)` of the given kind.  After the `lo > hi` check, out-of-bound edges
are written back into the sequence (`range_tuple[0] = self.FREQ_MIN`,
`range_tuple[1] = self.FREQ_MAX`); on a `tuple` that item assignment raises
`TypeError`.  Returns the stored `_frequency_range` on success. -/
def set_frequency_range (kind : SeqKind) (lo hi : ℚ) : Except String (ℚ × ℚ) :=
  if lo > hi then
    Except.error "ERROR: Low frequency limit is higher than the High frequency limit"
  else if lo < FREQ_MIN then
    match kind with
    | SeqKind.tuple => Except.error "TypeError: tuple object does not support item assignment"
    | SeqKind.list =>
        if hi > FREQ_MAX then Except.ok (FREQ_MIN, FREQ_MAX) else Except.ok (FREQ_MIN, hi)
  else if hi > FREQ_MAX then
    match kind with
    | SeqKind.tuple => Except.error "TypeError: tuple object does not support item assignment"
    | SeqKind.list => Except.ok (lo, FREQ_MAX)
  else Except.ok (lo, hi)

/-- The frequency state right after default construction
(`__init__` calls `set_frequency_exact(1000)` with `_frequency = 1000.0`):
frequency 1000, range `(1000, 10000)`, time period `1/1000`. -/
def initFreqState : FreqState :=
  set_frequency_exact 1000 { frequency := 1000, frequency_range := (1/10, 10), time_period := none }

/-- Sanity: default construction stores frequency 1000, band `(1000, 10000)`
(1000 is exactly the lower bound of band 3, so the selection loop fires),
and time period `1/1000`. -/
theorem initFreqState_eval :
    initFreqState =
      { frequency := 1000, frequency_range := (1000, 10000), time_period := some (1/1000) } := by
  simp [initFreqState, set_frequency_exact, selectRange, FREQ_RANGE, FREQ_MIN, FREQ_MAX,
    List.find?]
  norm_num

/-- Claim C1: the spec says `set_frequency_exact(hz)` clamps the stored
frequency into `[FREQ_MIN, FREQ_MAX]`, and in particular that
`set_frequency_exact(FREQ_MAX + 1)` leaves `frequency = FREQ_MAX` and an
input below `FREQ_MIN` leaves it at `FREQ_MIN`.  The code's clamp branches
are overwritten by the unconditional `self._frequency = float(frequency)`:
`set_frequency_exact(FREQ_MAX + 1)` stores `FREQ_MAX + 1 > FREQ_MAX`, and
`set_frequency_exact(9/100)` stores `9/100 < FREQ_MIN`. -/
theorem c1_set_frequency_exact_does_not_clamp :
    (set_frequency_exact (FREQ_MAX + 1) initFreqState).frequency = FREQ_MAX + 1 ∧
    FREQ_MAX < (set_frequency_exact (FREQ_MAX + 1) initFreqState).frequency ∧
    (set_frequency_exact (9/100) initFreqState).frequency = 9/100 ∧
    (set_frequency_exact (9/100) initFreqState).frequency < FREQ_MIN := by
  simp [initFreqState, set_frequency_exact, selectRange, FREQ_RANGE, FREQ_MIN, FREQ_MAX,
    List.find?]
  norm_num

/-- Claim C3: the spec says that for `FREQ_MIN ≤ f ≤ FREQ_MAX`, after
`set_frequency_exact(f)` the stored `time_period` equals `1/f` (true) and
`frequency_range` is a decade band containing `f` (false).  The selection
loop tests `frequency <= FREQ_RANGE[i][0] and frequency >= FREQ_RANGE[i][0]`,
i.e. equality with the band's lower bound, so for `f = 5` (after default
construction, where the range is `(1000, 10000)`) the range is left
unchanged and does not contain 5. -/
theorem c3_set_frequency_exact_range_stale :
    (set_frequency_exact 5 initFreqState).time_period = some (1/5) ∧
    (set_frequency_exact 5 initFreqState).frequency_range = (1000, 10000) ∧
    ¬ ((set_frequency_exact 5 initFreqState).frequency_range.1 ≤ 5) := by
  simp [initFreqState, set_frequency_exact, selectRange, FREQ_RANGE, FREQ_MIN, FREQ_MAX,
    List.find?]
  norm_num

/-- Claim C7: the spec says `set_frequency_range` succeeds on every
two-element list or tuple with `low ≤ high`, silently saturating
out-of-bound edges.  The saturation is performed by item assignment into
the passed sequence (`range_tuple[0] = self.FREQ_MIN`), which raises
`TypeError` when the sequence is a tuple: `set_frequency_range((0.05, 100))`
raises instead of storing `(0.1, 100)`, while the same input as a list
saturates as described. -/
theorem c7_set_frequency_range_tuple_raises :
    set_frequency_range SeqKind.tuple (1/20) 100 =
      Except.error "TypeError: tuple object does not support item assignment" ∧
    set_frequency_range SeqKind.list (1/20) 100 = Except.ok (FREQ_MIN, 100) := by
  simp [set_frequency_range, FREQ_MIN, FREQ_MAX]
  norm_num

/-- `AMPL_MIN = 0.0` (class constant). -/
def AMPL_MIN : ℝ := 0

/-- `AMPL_MAX = 10.0` (class constant). -/
def AMPL_MAX : ℝ := 10

/-- The amplitude-related slice of the generator's state:
`_amplitude` and `_attenuation`. -/
structure AmplState where
  amplitude : ℝ
  attenuation : ℝ

/-- `set_amplitude_exact` (lines 247-262).  The two clamp branches assign
`_amplitude`/`_attenuation`, but execution then falls through to the
unconditional `self._attenuation = 20 * (math.log10(float(ampl) / 10))`:
for `ampl ≤ 0` that `log10` call raises `ValueError` (after the clamp
branch has already mutated the state), and for any other `ampl` the clamp
branch is overwritten.  Returns the final state together with the raised
exception, if any. -/
noncomputable def set_amplitude_exact (ampl : ℝ) (s : AmplState) : AmplState × Option String :=
  let s := if ampl ≤ AMPL_MIN then { amplitude := 0, attenuation := 0 } else s
  let s := if ampl ≥ AMPL_MAX then { amplitude := 10, attenuation := 0 } else s
  if ampl / 10 ≤ 0 then (s, some "ValueError: math domain error")
  else ({ amplitude := ampl, attenuation := 20 * Real.logb 10 (ampl / 10) }, none)

/-- Claim C2: the spec says `set_amplitude_exact(a)` succeeds for all
`0 ≤ a ≤ 10` with `attenuation = 20·log10(a/10)` (0 at the boundaries), and
saturates, rather than raising, outside `[AMPL_MIN, AMPL_MAX]`.  In the code
the unconditional `math.log10(ampl/10)` raises `ValueError` for `ampl ≤ 0`
(so `set_amplitude_exact(0)` and `set_amplitude_exact(-1)` raise), and for
`ampl = 11 > AMPL_MAX` the clamp to 10 is overwritten and amplitude 11 is
stored. -/
theorem c2_set_amplitude_exact_raises_and_does_not_saturate :
    set_amplitude_exact 0 { amplitude := 1, attenuation := 0 } =
      ({ amplitude := 0, attenuation := 0 }, some "ValueError: math domain error") ∧
    set_amplitude_exact (-1) { amplitude := 1, attenuation := 0 } =
      ({ amplitude := 0, attenuation := 0 }, some "ValueError: math domain error") ∧
    (set_amplitude_exact 11 { amplitude := 1, attenuation := 0 }).1.amplitude = 11 ∧
    (set_amplitude_exact 11 { amplitude := 1, attenuation := 0 }).2 = none := by
  simp [set_amplitude_exact, AMPL_MIN, AMPL_MAX]
  norm_num

/-- Division `t / time_p` where `time_p` may be Python's `float("inf")`
(encoded `none`); a finite number divided by infinity is `0.0` in Python. -/
noncomputable def divInf (t : ℝ) : Option ℝ → ℝ
  | some p => t / p
  | none => 0

/-- The waveform if-chain of `run` (lines 509-535), as a function of the
type number, the (possibly FM-shifted) frequency `freq` and period `time_p`
(`none` = `float("inf")`), and the current time offset `t`:
type 0 assigns `sin(2*pi*freq*t) + 0.5`; type 1 assigns `1` if
`t < time_p/2` else `0` (with an infinite period the comparison is true);
type 2 assigns `t/time_p`; types 3 and 4 first assign
`2*((t/time_p) - ((t/time_p) + 0.5))`, then type 3 takes `abs` and type 4
adds `1`.  No branch tests any other type number: for those the Python
local `voltage` is left unbound (`none`) and the loop body dies with
`UnboundLocalError` where `voltage` is next read. -/
noncomputable def synthesize (typ : ℕ) (freq : ℝ) (time_p : Option ℝ) (t : ℝ) : Option ℝ :=
  match typ with
  | 0 => some (Real.sin (2 * Real.pi * freq * t) + 0.5)
  | 1 => some (match time_p with
      | some p => if t < p / 2 then 1 else 0
      | none => 1)
  | 2 => some (divInf t time_p)
  | 3 => some |2 * (divInf t time_p - (divInf t time_p + 0.5))|
  | 4 => some (2 * (divInf t time_p - (divInf t time_p + 0.5)) + 1)
  | _ => none

/-- The snapshot of generator state read by one iteration of `run`:
`_type`, `_mod_type`, `_frequency`, `_time_period` (`none` = infinity),
`_amplitude`, `_offset`, and the value carried by the enable input bus
(modeled so that independence from it can be stated). -/
structure GenState where
  typ : ℕ
  mod_type : ℕ
  frequency : ℝ
  time_period : Option ℝ
  amplitude : ℝ
  offset : ℝ
  enable : Bool

/-- The observable outcome of one iteration of the `while` loop in `run`:
the voltage passed to `outputs.set_voltage_all` (if any), the duration
slept (if any), whether the body raised `UnboundLocalError`, and the value
of `old_time_offset` afterwards. -/
structure TickResult where
  published : Option ℝ
  slept : Option ℝ
  crashed : Bool
  new_old : ℝ

/-- Lines 497-507 of `run`: under FM (`_mod_type == 2`) the instantaneous
frequency is `_frequency + m_t` and the period is its reciprocal
(infinite when the sum is 0); otherwise the stored frequency and period
are used unchanged. -/
noncomputable def fm_params (s : GenState) (m_t : ℝ) : ℝ × Option ℝ :=
  if s.mod_type = 2 then
    (s.frequency + m_t,
      if s.frequency + m_t ≠ 0 then some (1 / (s.frequency + m_t)) else none)
  else (s.frequency, s.time_period)

/-- One iteration of the `while not self._exit` loop of `run`
(lines 488-548), given the modulating sample `m_t` (difference of the two
`mod_ip` terminals), the previous `old_time_offset` and the freshly
computed `cur_time_offset`.  The body publishes and sleeps only when
`abs(cur - old) >= SAMPLING_TIME_INTERVAL` (`_time_period / 500`; with an
infinite stored period the threshold is infinite and never met).  AM
(`_mod_type == 1`) replaces the carrier `c_t` by `(1 + m_t) * c_t`; the
published voltage is `voltage * _amplitude + _offset`; the sleep
`time.sleep(SAMPLING_TIME_INTERVAL)` sits inside the publish branch. -/
noncomputable def runTick (s : GenState) (m_t old cur : ℝ) : TickResult :=
  match s.time_period with
  | none => { published := none, slept := none, crashed := false, new_old := old }
  | some p =>
    if |cur - old| ≥ p / 500 then
      match synthesize s.typ (fm_params s m_t).1 (fm_params s m_t).2 cur with
      | none => { published := none, slept := none, crashed := true, new_old := old }
      | some c_t =>
        let v := if s.mod_type = 1 then (1 + m_t) * c_t else c_t
        { published := some (v * s.amplitude + s.offset),
          slept := some (p / 500), crashed := false, new_old := cur }
    else { published := none, slept := none, crashed := false, new_old := old }

/-- Claim C10: for every frequency, phase position and period (finite or
infinite), the raw voltage synthesized for the Triangular waveform
(type 3) is the constant 1 and for the Sawtooth waveform (type 4) is the
constant 0, because `2 * (x - (x + 0.5))` reduces to `-1` for every `x`. -/
theorem c10_triangular_sawtooth_constant (freq : ℝ) (time_p : Option ℝ) (t : ℝ) :
    synthesize 3 freq time_p t = some 1 ∧ synthesize 4 freq time_p t = some 0 := by
  refine ⟨?_, ?_⟩ <;>
    · simp only [synthesize, Option.some.injEq]
      ring_nf
      all_goals norm_num

/-- Claim C4: the spec says waveform type 5 (TTL / DigitalLevel) is
synthesized identically to Square.  The if-chain in `run` has no branch for
type 5, so no voltage is synthesized at all (`none`), while Square at the
same phase (0.3 of a period of 1/10 s) yields 1; a tick of the loop with
type 5 dies with `UnboundLocalError` instead of publishing. -/
theorem c4_ttl_not_synthesized :
    (∀ freq time_p t, synthesize 5 freq time_p t = none) ∧
    synthesize 1 10 (some (1/10)) (3/100) = some 1 ∧
    (runTick { typ := 5, mod_type := 0, frequency := 10, time_period := some (1/10),
               amplitude := 1, offset := 0, enable := false } 0 0 (1/100)).crashed = true := by
  refine ⟨fun freq time_p t => rfl, ?_, ?_⟩
  · simp only [synthesize, Option.some.injEq]
    norm_num
  · simp only [runTick, fm_params, synthesize]
    norm_num [abs_of_nonneg]

/-- Claim C8: the published voltage is independent of the enable input.
The loop body of `run` never reads the enable bus, so two iterations whose
state differs only in the enable value produce identical outcomes
(published voltage, sleep, crash flag and recorded phase alike). -/
theorem c8_output_independent_of_enable (s : GenState) (e1 e2 : Bool) (m_t old cur : ℝ) :
    runTick { s with enable := e1 } m_t old cur = runTick { s with enable := e2 } m_t old cur :=
  rfl

/-- Claim C5 counterexample: the claim says every iteration of the
scheduler loop sleeps for `period/500` whether or not it published.  With
period 1 s, `old = 0` and `cur = 1/10000` (below the `1/500` threshold),
the iteration publishes nothing and, because `time.sleep` sits inside the
publish branch, does not sleep either. -/
theorem c5_counterexample_no_sleep_without_publish :
    (runTick { typ := 1, mod_type := 0, frequency := 1, time_period := some 1,
               amplitude := 1, offset := 0, enable := false } 0 0 (1/10000)).slept = none ∧
    (runTick { typ := 1, mod_type := 0, frequency := 1, time_period := some 1,
               amplitude := 1, offset := 0, enable := false } 0 0 (1/10000)).published = none := by
  simp only [runTick, fm_params, synthesize]
  norm_num [abs_of_nonneg]

/-- Claim C5 amended: an iteration of the scheduler loop sleeps exactly
when it publishes, and when it does, the sleep duration is
`SAMPLING_TIME_INTERVAL = time_period / 500`; an iteration that does not
publish re-checks the stop flag immediately without sleeping. -/
theorem c5_sleeps_iff_publishes (s : GenState) (m_t old cur : ℝ) :
    ((runTick s m_t old cur).slept.isSome ↔ (runTick s m_t old cur).published.isSome) ∧
    (∀ p, s.time_period = some p → (runTick s m_t old cur).published.isSome →
      (runTick s m_t old cur).slept = some (p / 500)) := by
  cases htp : s.time_period with
  | none => simp [runTick, htp]
  | some p =>
    by_cases hthr : |cur - old| ≥ p / 500
    · cases hsyn : synthesize s.typ (fm_params s m_t).1 (fm_params s m_t).2 cur with
      | none => simp [runTick, htp, hthr, hsyn]
      | some c_t =>
        refine ⟨by simp [runTick, htp, hthr, hsyn], fun q hq _ => ?_⟩
        obtain rfl : p = q := by injection hq
        simp [runTick, htp, hthr, hsyn]
    · simp [runTick, htp, hthr]

/-- Claim C5 amended, witness: with period `1/10` s, `old = 0` and
`cur = 1/100` (above the `1/5000` threshold), the square-wave iteration
publishes and sleeps for `(1/10)/500`. -/
theorem c5_sleeps_iff_publishes_witness :
    (runTick { typ := 1, mod_type := 0, frequency := 10, time_period := some (1/10),
               amplitude := 1, offset := 0, enable := false } 0 0 (1/100)).slept =
      some ((1/10) / 500) := by
  apply (c5_sleeps_iff_publishes
    { typ := 1, mod_type := 0, frequency := 10, time_period := some (1/10),
      amplitude := 1, offset := 0, enable := false } 0 0 (1/100)).2 (1/10) rfl
  simp only [runTick, fm_params, synthesize]
  norm_num [abs_of_nonneg]

/-- Claim C6: under AM modulation (`_mod_type == 1`), a publishing
iteration outputs `((1 + m_t) * c_t) * amplitude + offset`, where `c_t` is
the carrier sample synthesized from the stored frequency and period and
`m_t` is the difference of the two modulation-input terminals. -/
theorem c6_am_published_voltage (s : GenState) (m_t old cur c_t p : ℝ)
    (hmod : s.mod_type = 1)
    (htp : s.time_period = some p)
    (hthr : |cur - old| ≥ p / 500)
    (hsyn : synthesize s.typ s.frequency s.time_period cur = some c_t) :
    (runTick s m_t old cur).published = some (((1 + m_t) * c_t) * s.amplitude + s.offset) := by
  have hfm : fm_params s m_t = (s.frequency, s.time_period) := by
    simp [fm_params, hmod]
  simp [runTick, htp, hthr, hfm, htp ▸ hsyn, hmod]

/-- Claim C6 witness: square carrier (type 1) at period `1/10` s, phase
offset `1/100` (carrier sample 1), `m_t = 1/2`, amplitude 2, offset 3:
the published voltage is `((1 + 1/2) * 1) * 2 + 3`. -/
theorem c6_am_published_voltage_witness :
    (runTick { typ := 1, mod_type := 1, frequency := 10, time_period := some (1/10),
               amplitude := 2, offset := 3, enable := false } (1/2) 0 (1/100)).published =
      some (((1 + 1/2) * 1) * 2 + 3) := by
  apply c6_am_published_voltage _ _ _ _ 1 (1/10) rfl rfl
  · rw [show |(1:ℝ)/100 - 0| = 1/100 by rw [sub_zero]; exact abs_of_nonneg (by norm_num)]
    norm_num
  · simp only [synthesize]
    norm_num

/-- The instance-attribute names assigned on `self` during
`SignalGenerator.__init__` (lines 175-203, default arguments), in order,
including the attributes assigned by the setters `__init__` calls
(`set_offset`, `set_modulation_type`, `set_type`, `set_frequency_exact`,
`set_amplitude_exact`).  `__init__` assigns `self.enable = Bus(1)` — with
no underscore — and no statement anywhere in the constructor assigns
`self._enable`. -/
def initAssignedAttrs : List String :=
  ["enable", "outputs", "_offset", "mod_ip", "_mod_type", "_type",
   "_frequency", "_frequency_range", "_time_period", "_amplitude",
   "_attenuation", "_exit"]

/-- Python attribute lookup on the freshly constructed generator: a read
of a name `__init__` assigned succeeds, any other read raises
`AttributeError`. -/
def getattrInit (name : String) : Except String Unit :=
  if name ∈ initAssignedAttrs then Except.ok () else Except.error ("AttributeError: " ++ name)

/-- The `enabled` property body (lines 229-231): `return bool(self._enable)`
evaluates the attribute read `self._enable` first. -/
def enabled_get : Except String Unit :=
  getattrInit "_enable"

/-- The `disabled` property body (lines 233-235): `return not self.enabled`
evaluates `self.enabled`, so it propagates the same attribute read. -/
def disabled_get : Except String Unit :=
  enabled_get

/-- Claim C9: the spec says every getter returns without raising, and in
particular that `enabled` (and `disabled`) return a boolean after
construction.  `__init__` assigns `self.enable` but the property reads
`self._enable`, which is never assigned, so both property reads raise
`AttributeError` on a freshly constructed generator, while the misnamed
`enable` attribute itself does exist. -/
theorem c9_enabled_property_raises :
    enabled_get = Except.error "AttributeError: _enable" ∧
    disabled_get = Except.error "AttributeError: _enable" ∧
    getattrInit "enable" = Except.ok () := by
  refine ⟨?_, ?_, ?_⟩ <;> rfl

end SignalGenerator
